import Mathlib

/-!
Shallow embedding of `scripts/pmo_report_generator.py`.

The script is a linear pipeline: fetch issues from a remote tracker,
aggregate four KPI counts, render a dark-themed HTML report, write it to a
file and hand it to two inert e-mail stubs.  Pure computations (aggregation,
rendering, name/subject formatting) are embedded as Lean functions; the
effectful boundary (the HTTP response, the clock, the scheduler label) is
passed in explicitly as data, and the observable effects of one run (the
query sent, the file written, the notifier calls made) are collected in a
record.
-/

namespace Pmo

/-- One issue record, as the aggregator observes it: a JSON object whose
`fields` entry (when present) may carry a `priority` value and a `status`
object with a `name` entry.  `priority` is kept as the string rendering that
`str(...)` produces on it in the Python code; every absent entry is `none`,
matching `dict.get` returning the default. -/
structure IssueStatus where
  name : Option String
  deriving DecidableEq, Repr

structure IssueFields where
  priority : Option String
  status : Option IssueStatus
  deriving DecidableEq, Repr

structure Issue where
  fields : Option IssueFields
  deriving DecidableEq, Repr

/-- `str(i.get('fields', {}).get('priority', ''))`: an absent `fields` or
`priority` entry defaults to the empty string. -/
def priorityText (i : Issue) : String :=
  match i.fields with
  | none => ""
  | some f =>
    match f.priority with
    | none => ""
    | some p => p

/-- `i.get('fields', {}).get('status', {}).get('name')`: `none` whenever any
link of the chain is absent. -/
def statusName (i : Issue) : Option String :=
  match i.fields with
  | none => none
  | some f =>
    match f.status with
    | none => none
    | some st => st.name

/-- Python substring containment `sub in hay` (case-sensitive). -/
def strContains (hay sub : String) : Bool :=
  decide (sub.data <:+: hay.data)

/-- `'Highest' in str(i.get('fields', {}).get('priority', ''))` (line 61). -/
def isCritical (i : Issue) : Bool :=
  strContains (priorityText i) "Highest"

/-- `i.get('fields', {}).get('status', {}).get('name') in ['In Review', 'In Progress']` (line 62). -/
def isInRisk (i : Issue) : Bool :=
  statusName i == some "In Review" || statusName i == some "In Progress"

/-- `i.get('fields', {}).get('status', {}).get('name') == 'Done'` (line 63). -/
def isCompleted (i : Issue) : Bool :=
  statusName i == some "Done"

/-- `total_issues = len(issues)` (line 60). -/
def total_issues (issues : List Issue) : Nat :=
  issues.length

/-- `critical_count = sum(1 for i in issues if 'Highest' in str(...))` (line 61). -/
def critical_count (issues : List Issue) : Nat :=
  issues.countP isCritical

/-- `in_risk = sum(1 for i in issues if ... in ['In Review', 'In Progress'])` (line 62). -/
def in_risk (issues : List Issue) : Nat :=
  issues.countP isInRisk

/-- `completed = sum(1 for i in issues if ... == 'Done')` (line 63). -/
def completed (issues : List Issue) : Nat :=
  issues.countP isCompleted

/-- The f-string template of `generate_dark_report` (lines 65-94), up to the
`{self.timestamp}` interpolation. -/
def htmlHead : String :=
  "\n<!DOCTYPE html>\n"
    ++ "<html lang=\"pt-BR\">\n"
    ++ "<head>\n"
    ++ "    <meta charset=\"UTF-8\">\n"
    ++ "    <meta name=\"viewport\" content=\"width=device-width, initial-scale=1.0\">\n"
    ++ "    <title>PMO Executive Report</title>\n"
    ++ "    <style>\n"
    ++ "        body \x7b background: #1a1a1a; color: #e0e0e0; font-family: \x27Segoe UI\x27, Tahoma, sans-serif; margin: 0; padding: 20px; \x7d\n"
    ++ "        .container \x7b max-width: 1200px; margin: 0 auto; background: #222; border: 1px solid #444; border-radius: 8px; padding: 30px; \x7d\n"
    ++ "        .header \x7b border-bottom: 3px solid #00d4ff; padding-bottom: 20px; margin-bottom: 30px; \x7d\n"
    ++ "        .header h1 \x7b margin: 0; color: #00d4ff; \x7d\n"
    ++ "        .timestamp \x7b color: #888; font-size: 0.9em; \x7d\n"
    ++ "        .kpi-grid \x7b display: grid; grid-template-columns: repeat(auto-fit, minmax(200px, 1fr)); gap: 20px; margin: 30px 0; \x7d\n"
    ++ "        .kpi-card \x7b background: #2a2a2a; border: 1px solid #444; border-radius: 6px; padding: 20px; \x7d\n"
    ++ "        .kpi-value \x7b font-size: 2.5em; font-weight: bold; color: #00d4ff; \x7d\n"
    ++ "        .kpi-label \x7b color: #aaa; font-size: 0.9em; margin-top: 10px; \x7d\n"
    ++ "        .section \x7b margin: 40px 0; \x7d\n"
    ++ "        .section h2 \x7b color: #00d4ff; border-left: 4px solid #ff006e; padding-left: 15px; \x7d\n"
    ++ "        .risk-box \x7b background: #3a2a2a; border-left: 4px solid #ff006e; padding: 15px; margin: 15px 0; border-radius: 4px; \x7d\n"
    ++ "        .status-ok \x7b color: #00ff41; \x7d\n"
    ++ "        .status-warning \x7b color: #ffaa00; \x7d\n"
    ++ "        .status-critical \x7b color: #ff006e; \x7d\n"
    ++ "    </style>\n"
    ++ "</head>\n"
    ++ "<body>\n"
    ++ "    <div class=\"container\">\n"
    ++ "        <div class=\"header\">\n"
    ++ "            <h1>🚀 PMO Executive Report - 360°</h1>\n"
    ++ "            <p class=\"timestamp\">Gerado em: "

/-- Template between `{self.timestamp}` and the first `{total_issues}`. -/
def htmlMid1 : String :=
  "</p>\n"
    ++ "        </div>\n"
    ++ "        \n"
    ++ "        <div class=\"kpi-grid\">\n"
    ++ "            <div class=\"kpi-card\">\n"
    ++ "                <div class=\"kpi-value\">"

/-- Template between the first `{total_issues}` and `{critical_count}`. -/
def htmlMid2 : String :=
  "</div>\n"
    ++ "                <div class=\"kpi-label\">Total de Tarefas</div>\n"
    ++ "            </div>\n"
    ++ "            <div class=\"kpi-card\">\n"
    ++ "                <div class=\"kpi-value status-critical\">"

/-- Template between the first `{critical_count}` and `{in_risk}`. -/
def htmlMid3 : String :=
  "</div>\n"
    ++ "                <div class=\"kpi-label\">🔴 Críticas</div>\n"
    ++ "            </div>\n"
    ++ "            <div class=\"kpi-card\">\n"
    ++ "                <div class=\"kpi-value status-warning\">"

/-- Template between `{in_risk}` and `{completed}`. -/
def htmlMid4 : String :=
  "</div>\n"
    ++ "                <div class=\"kpi-label\">🟡 Em Risco</div>\n"
    ++ "            </div>\n"
    ++ "            <div class=\"kpi-card\">\n"
    ++ "                <div class=\"kpi-value status-ok\">"

/-- Template between `{completed}` and the second `{total_issues}`. -/
def htmlMid5 : String :=
  "</div>\n"
    ++ "                <div class=\"kpi-label\">🟢 Concluídas</div>\n"
    ++ "            </div>\n"
    ++ "        </div>\n"
    ++ "        \n"
    ++ "        <div class=\"section\">\n"
    ++ "            <h2>📊 Situação do Dia</h2>\n"
    ++ "            <div class=\"risk-box\">\n"
    ++ "                <p><strong>Throughput:</strong> 42 tarefas/semana</p>\n"
    ++ "                <p><strong>Tarefas Abertas:</strong> "

/-- Template between the second `{total_issues}` and the second
`{critical_count}`. -/
def htmlMid6 : String :=
  "</p>\n"
    ++ "                <p><strong>Hotzone:</strong> "

/-- Template after the second `{critical_count}`, to the end of the
f-string (lines 121-140). -/
def htmlTail : String :=
  " itens críticos</p>\n"
    ++ "            </div>\n"
    ++ "        </div>\n"
    ++ "        \n"
    ++ "        <div class=\"section\">\n"
    ++ "            <h2>🔥 Riscos Críticos - MAGENTA</h2>\n"
    ++ "            <div class=\"risk-box\">\n"
    ++ "                <p>Revisar issues com status \x27In Progress\x27 e priority \x27Highest\x27 imediatamente.</p>\n"
    ++ "                <p><strong>Recomendação:</strong> Alocar recursos adicionais e fazer acompanhamento diário.</p>\n"
    ++ "            </div>\n"
    ++ "        </div>\n"
    ++ "        \n"
    ++ "        <div class=\"section\">\n"
    ++ "            <h2>📋 Distribuição por Status</h2>\n"
    ++ "            <p>✅ Monitorar backlog em tempo real para otimizar fluxo de trabalho.</p>\n"
    ++ "        </div>\n"
    ++ "    </div>\n"
    ++ "</body>\n"
    ++ "</html>\n"
    ++ "        "

/-- `generate_dark_report` (lines 56-141): computes the four KPI counts and
interpolates them, together with the generation timestamp, into the fixed
HTML template.  `self.timestamp` (stamped once in `__init__`) is passed in
as the `timestamp` argument; integer interpolation is Python `str(int)`,
i.e. `Nat.repr`. -/
def generate_dark_report (timestamp : String) (issues : List Issue) : String :=
  htmlHead ++ (timestamp ++ (htmlMid1 ++ (Nat.repr (total_issues issues)
    ++ (htmlMid2 ++ (Nat.repr (critical_count issues)
    ++ (htmlMid3 ++ (Nat.repr (in_risk issues)
    ++ (htmlMid4 ++ (Nat.repr (completed issues)
    ++ (htmlMid5 ++ (Nat.repr (total_issues issues)
    ++ (htmlMid6 ++ (Nat.repr (critical_count issues)
    ++ htmlTail)))))))))))))

/-- The hardcoded recipient list (lines 21-24); the first address is an
Outlook one, the second a Gmail one, per the source comments. -/
def EMAILS : List String :=
  ["vinicius.souza@ybymartech.com", "viniciusouza@gmail.com"]

/-- The default JQL of `fetch_jira_issues` (line 37). -/
def defaultJql : String :=
  "status != Done ORDER BY priority DESC"

/-- The outcome of the one HTTP call of `fetch_jira_issues`: either a
response carrying a status code and the parsed `issues` entry of the body
(`data.get('issues', [])`, defaulting to the empty list), or a raised
exception (timeout, transport failure, JSON parse failure, ...). -/
inductive JiraOutcome where
  | response (status_code : Nat) (issues : List Issue)
  | raised (message : String)
  deriving DecidableEq, Repr

/-- `fetch_jira_issues` (lines 37-54): on a 200 response return the parsed
issue list, on any other status code print an error and return `[]`, and on
any exception print an error and return `[]`.  The `jql` argument only
parameterizes the request sent; it does not affect how an outcome is
handled. -/
def fetch_jira_issues (jql : String) (outcome : JiraOutcome) : List Issue :=
  match outcome with
  | .response status_code issues =>
    if status_code = 200 then issues
    else []
  | .raised _ =>
    let _ := jql
    []

/-- What one notifier backend call does, observably: it either emits an
informational log line, actually transmits a mail, or raises to its
caller. -/
inductive NotifyAction where
  | info (message : String)
  | sent (recipient : String)
  | raised (message : String)
  deriving DecidableEq, Repr

/-- `send_email_gmail` (lines 143-146): a stub that only prints an
informational line and returns. -/
def send_email_gmail (recipient subject html_body : String) : List NotifyAction :=
  let _ := (recipient, subject, html_body)
  [NotifyAction.info "Gmail integration requires OAuth setup"]

/-- `send_email_outlook` (lines 148-162): builds a MIME message (pure),
prints an informational line and returns without sending; any exception is
caught and logged inside the function, so nothing propagates to the
caller. -/
def send_email_outlook (recipient subject html_body : String) : List NotifyAction :=
  let _ := (subject, html_body)
  [NotifyAction.info ("Outlook email ready for: " ++ recipient)]

/-- Which backend stub the pipeline dispatched a recipient to. -/
inductive Backend where
  | gmail
  | outlook
  deriving DecidableEq, Repr

/-- One notifier dispatch made by `generate_report`: the backend chosen,
the arguments passed, and the actions that backend performed. -/
structure DeliveryCall where
  backend : Backend
  recipient : String
  subject : String
  body : String
  actions : List NotifyAction
  deriving DecidableEq, Repr

/-- The observable effects of one run of `generate_report`. -/
structure RunResult where
  jqlUsed : String
  filename : String
  writtenContent : String
  subject : String
  deliveries : List DeliveryCall
  deriving DecidableEq, Repr

/-- `generate_report` (lines 164-187): fetch with the default JQL, render,
write `reports/pmo_report_<time>_<YYYYMMDD>.html`, then loop over `EMAILS`
calling `send_email_outlook` for every address.  The ambient clock is passed
in as `timestamp` (the `%Y-%m-%d %H:%M:%S` stamp taken in `__init__`),
`date_ymd` (`%Y%m%d`) and `date_dmy` (`%d/%m/%Y`); the HTTP outcome as
`outcome`; the `--time` label as `report_time`. -/
def generate_report (outcome : JiraOutcome) (timestamp date_ymd date_dmy : String)
    (report_time : String) : RunResult :=
  let issues := fetch_jira_issues defaultJql outcome
  let html_report := generate_dark_report timestamp issues
  let filename := "reports" ++ "/pmo_report_" ++ report_time ++ "_" ++ date_ymd ++ ".html"
  let subject := "📊 PMO Report " ++ report_time ++ " - " ++ date_dmy
  { jqlUsed := defaultJql
    filename := filename
    writtenContent := html_report
    subject := subject
    deliveries := EMAILS.map fun email =>
      { backend := Backend.outlook
        recipient := email
        subject := subject
        body := html_report
        actions := send_email_outlook email subject html_report } }

/-- A notifier action that merely logs. -/
def logOnly (a : NotifyAction) : Bool :=
  match a with
  | .info _ => true
  | .sent _ => false
  | .raised _ => false

/-- The three-record scenario of the specification: priorities
`Highest`/`Low`/`Highest` with statuses `In Progress`/`Done`/`Done`. -/
def specScenario : List Issue :=
  [⟨some ⟨some "Highest", some ⟨some "In Progress"⟩⟩⟩,
   ⟨some ⟨some "Low", some ⟨some "Done"⟩⟩⟩,
   ⟨some ⟨some "Highest", some ⟨some "Done"⟩⟩⟩]

theorem strContains_append_right (a b sub : String) (h : strContains b sub = true) :
    strContains (a ++ b) sub = true := by
  simp only [strContains, decide_eq_true_eq] at h ⊢
  rw [String.data_append]
  exact h.trans (List.suffix_append a.data b.data).isInfix

theorem countP_add_countP_le_length {α : Type} (l : List α) (p q : α → Bool)
    (h : ∀ a, p a = true → q a = false) :
    l.countP p + l.countP q ≤ l.length := by
  induction l with
  | nil => simp
  | cons a t ih =>
    by_cases hp : p a = true
    · have hq : q a = false := h a hp
      simp [List.countP_cons, hp, hq]
      omega
    · cases hq : q a <;> simp [List.countP_cons, hp, hq] <;> omega

theorem inRisk_completed_disjoint (i : Issue) (h : isInRisk i = true) :
    isCompleted i = false := by
  unfold isInRisk at h
  unfold isCompleted
  rcases hs : statusName i with _ | s
  · rw [hs] at h
    simp at h
  · rw [hs] at h
    simp only [Bool.or_eq_true, beq_iff_eq, Option.some.injEq] at h
    simp only [beq_eq_false_iff_ne, ne_eq, Option.some.injEq]
    rcases h with h | h <;> subst h <;> decide

/-- C1: for every input list, `critical` counts exactly the records whose
priority label contains the case-sensitive substring "Highest", `inRisk`
exactly the records whose status name is "In Review" or "In Progress", and
`completed` exactly the records whose status name is "Done"; on the
three-record spec scenario the summary is `{total:3, critical:2, inRisk:1,
completed:2}`. -/
theorem aggregator_counts_spec :
    (∀ issues : List Issue,
      critical_count issues
        = (issues.filter fun i => strContains (priorityText i) "Highest").length ∧
      in_risk issues
        = (issues.filter fun i =>
            statusName i == some "In Review" || statusName i == some "In Progress").length ∧
      completed issues
        = (issues.filter fun i => statusName i == some "Done").length) ∧
    (total_issues specScenario = 3 ∧ critical_count specScenario = 2 ∧
      in_risk specScenario = 1 ∧ completed specScenario = 2) := by
  constructor
  · intro issues
    refine ⟨?_, ?_, ?_⟩
    · unfold critical_count
      rw [List.countP_eq_length_filter]
      exact rfl
    · unfold in_risk
      rw [List.countP_eq_length_filter]
      exact rfl
    · unfold completed
      rw [List.countP_eq_length_filter]
      exact rfl
  · decide

/-- C2: the aggregator's `total` equals the length of the input list, for
every input list. -/
theorem total_eq_length (issues : List Issue) :
    total_issues issues = issues.length :=
  rfl

/-- C9: each of `critical`, `inRisk` and `completed` is at most `total`,
and `inRisk + completed ≤ total`, because a status name cannot be both
"Done" and one of "In Review"/"In Progress". -/
theorem count_invariants (issues : List Issue) :
    critical_count issues ≤ total_issues issues ∧
    in_risk issues ≤ total_issues issues ∧
    completed issues ≤ total_issues issues ∧
    in_risk issues + completed issues ≤ total_issues issues :=
  ⟨List.countP_le_length isCritical, List.countP_le_length isInRisk,
   List.countP_le_length isCompleted,
   countP_add_countP_le_length issues isInRisk isCompleted inRisk_completed_disjoint⟩

set_option maxRecDepth 400000

/-- C3: the empty input yields the all-zero summary, and rendering it (for
any generation timestamp) still produces the document, with all four KPI
tiles present and each showing the literal value "0". -/
theorem empty_input_render :
    (total_issues [] = 0 ∧ critical_count [] = 0 ∧ in_risk [] = 0 ∧ completed [] = 0) ∧
    ∀ timestamp : String,
      strContains (generate_dark_report timestamp [])
        "<div class=\"kpi-value\">0</div>" = true ∧
      strContains (generate_dark_report timestamp [])
        "<div class=\"kpi-value status-critical\">0</div>" = true ∧
      strContains (generate_dark_report timestamp [])
        "<div class=\"kpi-value status-warning\">0</div>" = true ∧
      strContains (generate_dark_report timestamp [])
        "<div class=\"kpi-value status-ok\">0</div>" = true := by
  refine ⟨by decide, fun timestamp => ?_⟩
  refine ⟨?_, ?_, ?_, ?_⟩ <;>
    · unfold generate_dark_report
      apply strContains_append_right
      apply strContains_append_right
      decide

/-- C6: the rendering step is deterministic: the document is a function of
the timestamp and the issue list alone, and the timestamp occurs in a single
spot — for a fixed issue list there are a fixed prefix and suffix such that
every run's document is exactly `pre ++ timestamp ++ post`.  Two runs on
identical input (same timestamp, same issues) therefore produce
byte-identical documents, and runs differing only in the clock differ only
at the embedded timestamp. -/
theorem render_deterministic_modulo_timestamp (issues : List Issue) :
    ∃ pre post : String, ∀ timestamp : String,
      generate_dark_report timestamp issues = pre ++ timestamp ++ post := by
  refine ⟨htmlHead,
    htmlMid1 ++ (Nat.repr (total_issues issues)
      ++ (htmlMid2 ++ (Nat.repr (critical_count issues)
      ++ (htmlMid3 ++ (Nat.repr (in_risk issues)
      ++ (htmlMid4 ++ (Nat.repr (completed issues)
      ++ (htmlMid5 ++ (Nat.repr (total_issues issues)
      ++ (htmlMid6 ++ (Nat.repr (critical_count issues)
      ++ htmlTail))))))))))),
    fun timestamp => ?_⟩
  rw [String.append_assoc]
  rfl

/-- C7: the `--time` label reaches only the report filename and the mail
subject: two runs that differ only in the label use the same JQL query and
write the same document content, while the filename and subject embed the
label in the fixed patterns. -/
theorem time_label_isolation (outcome : JiraOutcome)
    (timestamp date_ymd date_dmy t1 t2 : String) :
    (generate_report outcome timestamp date_ymd date_dmy t1).jqlUsed
      = (generate_report outcome timestamp date_ymd date_dmy t2).jqlUsed ∧
    (generate_report outcome timestamp date_ymd date_dmy t1).writtenContent
      = (generate_report outcome timestamp date_ymd date_dmy t2).writtenContent ∧
    (generate_report outcome timestamp date_ymd date_dmy t1).filename
      = "reports" ++ "/pmo_report_" ++ t1 ++ "_" ++ date_ymd ++ ".html" ∧
    (generate_report outcome timestamp date_ymd date_dmy t1).subject
      = "📊 PMO Report " ++ t1 ++ " - " ++ date_dmy :=
  ⟨rfl, rfl, rfl, rfl⟩

/-- C8: both notifier backends only emit an informational log line for any
recipient, subject and body: no action of either is a transmission or an
exception reaching the caller. -/
theorem notifier_stubs_log_only (recipient subject html_body : String) :
    (send_email_gmail recipient subject html_body).all logOnly = true ∧
    (send_email_outlook recipient subject html_body).all logOnly = true :=
  ⟨rfl, rfl⟩

/-- C10: every run dispatches each of the two hardcoded recipients through
the Outlook stub — the Gmail backend is never invoked — giving exactly two
log-only Outlook delivery attempts per run. -/
theorem outlook_only_dispatch (outcome : JiraOutcome)
    (timestamp date_ymd date_dmy report_time : String) :
    ((generate_report outcome timestamp date_ymd date_dmy report_time).deliveries.map
        fun c => c.backend) = [Backend.outlook, Backend.outlook] ∧
    ((generate_report outcome timestamp date_ymd date_dmy report_time).deliveries.map
        fun c => c.recipient) = EMAILS ∧
    ((generate_report outcome timestamp date_ymd date_dmy report_time).deliveries.all
        fun c => (c.backend == Backend.outlook) && c.actions.all logOnly) = true :=
  ⟨rfl, rfl, rfl⟩

/-- A fetch outcome the Python code recovers from: a non-200 status or a
raised exception. -/
def fetchFailed (outcome : JiraOutcome) : Bool :=
  match outcome with
  | .response status_code _ => status_code != 200
  | .raised _ => true

/-- C5: on any non-200 response or raised exception the fetch degrades to
the empty list, and the run still completes: the written document is the
all-zero-summary render, the target filename is still produced, and both
recipients are still handed to the notifier. -/
theorem fetch_failure_degrades (outcome : JiraOutcome)
    (timestamp date_ymd date_dmy report_time : String)
    (h : fetchFailed outcome = true) :
    fetch_jira_issues defaultJql outcome = [] ∧
    (generate_report outcome timestamp date_ymd date_dmy report_time).writtenContent
      = generate_dark_report timestamp [] ∧
    (total_issues [] = 0 ∧ critical_count [] = 0 ∧ in_risk [] = 0 ∧ completed [] = 0) ∧
    (generate_report outcome timestamp date_ymd date_dmy report_time).filename
      = "reports" ++ "/pmo_report_" ++ report_time ++ "_" ++ date_ymd ++ ".html" ∧
    ((generate_report outcome timestamp date_ymd date_dmy report_time).deliveries.map
      fun c => c.recipient) = EMAILS := by
  have hf : fetch_jira_issues defaultJql outcome = [] := by
    cases outcome with
    | response status_code issues =>
      unfold fetchFailed at h
      simp only [bne_iff_ne, ne_eq] at h
      show (if status_code = 200 then issues else []) = []
      rw [if_neg h]
    | raised m => rfl
  refine ⟨hf, ?_, by decide, rfl, rfl⟩
  show generate_dark_report timestamp (fetch_jira_issues defaultJql outcome)
      = generate_dark_report timestamp []
  rw [hf]

theorem fetch_failure_degrades_witness :
    fetch_jira_issues defaultJql (JiraOutcome.raised "ReadTimeout") = [] ∧
    (generate_report (JiraOutcome.raised "ReadTimeout")
        "2024-03-05 09:00:00" "20240305" "05/03/2024" "09h").writtenContent
      = generate_dark_report "2024-03-05 09:00:00" [] ∧
    (total_issues [] = 0 ∧ critical_count [] = 0 ∧ in_risk [] = 0 ∧ completed [] = 0) ∧
    (generate_report (JiraOutcome.raised "ReadTimeout")
        "2024-03-05 09:00:00" "20240305" "05/03/2024" "09h").filename
      = "reports" ++ "/pmo_report_" ++ "09h" ++ "_" ++ "20240305" ++ ".html" ∧
    ((generate_report (JiraOutcome.raised "ReadTimeout")
        "2024-03-05 09:00:00" "20240305" "05/03/2024" "09h").deliveries.map
      fun c => c.recipient) = EMAILS :=
  fetch_failure_degrades (JiraOutcome.raised "ReadTimeout")
    "2024-03-05 09:00:00" "20240305" "05/03/2024" "09h" rfl

/-- A record whose `fields` entry is present but carries no `priority`,
while its status name is "Done". -/
def noPriorityDone : Issue :=
  ⟨some ⟨none, some ⟨some "Done"⟩⟩⟩

/-- A record with no `fields` entry at all. -/
def noFieldsRecord : Issue :=
  ⟨none⟩

/-- A record whose `fields` carries a priority but no `status`. -/
def noStatusRecord : Issue :=
  ⟨some ⟨some "Highest", none⟩⟩

/-- C4 counterexample: a record missing its `priority` entry — one of the
claim's own examples of a record "missing expected fields" — is NOT counted
only toward `total`: with status name "Done" it still counts toward
`completed`. -/
theorem missing_fields_counterexample :
    noPriorityDone.fields.map (fun f => f.priority) = some none ∧
    ¬ completed [noPriorityDone] = 0 := by
  refine ⟨rfl, ?_⟩
  decide

/-- C4 amended: the aggregator never raises on records with absent entries;
a record with no `fields` entry matches no category and counts only toward
`total`, and a record missing an individual entry merely fails the
categories that read that entry (no `priority` → not critical; no `status`
or no status `name` → neither in-risk nor completed), while categories whose
entries are present still apply. -/
theorem missing_fields_amended (issues : List Issue) (i : Issue) :
    (i.fields = none →
      total_issues (issues ++ [i]) = total_issues issues + 1 ∧
      critical_count (issues ++ [i]) = critical_count issues ∧
      in_risk (issues ++ [i]) = in_risk issues ∧
      completed (issues ++ [i]) = completed issues) ∧
    (∀ f : IssueFields, i.fields = some f → f.priority = none → isCritical i = false) ∧
    (statusName i = none → isInRisk i = false ∧ isCompleted i = false) := by
  refine ⟨?_, ?_, ?_⟩
  · intro hf
    have hsn : statusName i = none := by
      unfold statusName
      rw [hf]
    have hpt : priorityText i = "" := by
      unfold priorityText
      rw [hf]
    have hc : isCritical i = false := by
      unfold isCritical
      rw [hpt]
      decide
    have hr : isInRisk i = false := by
      unfold isInRisk
      rw [hsn]
      decide
    have hd : isCompleted i = false := by
      unfold isCompleted
      rw [hsn]
      decide
    refine ⟨?_, ?_, ?_, ?_⟩
    · simp [total_issues]
    · simp [critical_count, List.countP_append, List.countP_cons, hc]
    · simp [in_risk, List.countP_append, List.countP_cons, hr]
    · simp [completed, List.countP_append, List.countP_cons, hd]
  · intro f hf hp
    have hpt : priorityText i = "" := by
      unfold priorityText
      rw [hf]
      rcases f with ⟨fp, fs⟩
      have hfp : fp = none := hp
      subst hfp
      rfl
    unfold isCritical
    rw [hpt]
    decide
  · intro hs
    constructor
    · unfold isInRisk
      rw [hs]
      decide
    · unfold isCompleted
      rw [hs]
      decide

theorem missing_fields_amended_witness :
    (total_issues ([⟨some ⟨some "Low", some ⟨some "Done"⟩⟩⟩] ++ [noFieldsRecord])
        = total_issues [⟨some ⟨some "Low", some ⟨some "Done"⟩⟩⟩] + 1 ∧
      critical_count ([⟨some ⟨some "Low", some ⟨some "Done"⟩⟩⟩] ++ [noFieldsRecord])
        = critical_count [⟨some ⟨some "Low", some ⟨some "Done"⟩⟩⟩] ∧
      in_risk ([⟨some ⟨some "Low", some ⟨some "Done"⟩⟩⟩] ++ [noFieldsRecord])
        = in_risk [⟨some ⟨some "Low", some ⟨some "Done"⟩⟩⟩] ∧
      completed ([⟨some ⟨some "Low", some ⟨some "Done"⟩⟩⟩] ++ [noFieldsRecord])
        = completed [⟨some ⟨some "Low", some ⟨some "Done"⟩⟩⟩]) ∧
    isCritical noPriorityDone = false ∧
    (isInRisk noStatusRecord = false ∧ isCompleted noStatusRecord = false) :=
  ⟨(missing_fields_amended [⟨some ⟨some "Low", some ⟨some "Done"⟩⟩⟩] noFieldsRecord).1 rfl,
   (missing_fields_amended [] noPriorityDone).2.1 ⟨none, some ⟨some "Done"⟩⟩ rfl rfl,
   (missing_fields_amended [] noStatusRecord).2.2 rfl⟩

end Pmo
